import Mathlib

/-!
Verification of the GithubRepositoryReaderDemo notebook workflow.

The repository consists of a single notebook that wires four stages into a
linear pipeline: read credentials from environment variables, acquire
Documents from a remote repository (GithubRepositoryReader.load_data), build
and persist a vector index (GPTSimpleVectorIndex.from_documents /
save_to_disk), and answer one natural-language question (index.query).  The
stage implementations live in the external llama_index library and are not
part of this repository's sources, so they are modelled here from the
specification's capability contracts; the notebook's own orchestration is
embedded directly.
-/

namespace GithubDemo

/-- A unit of retrieved content: a text body plus origin-path metadata, as
produced by the content-source client and consumed by index construction. -/
structure Document where
  text : String
  extra_info : String
deriving DecidableEq, Repr

/-- Modelled from the spec: the error taxonomy of the content-source client
(GithubRepositoryReader, whose code is not under src/): AuthenticationError
when the token is invalid or lacks access, NotFoundError when the
owner/repository/branch triple does not exist. -/
inductive AcqError where
  | authenticationError
  | notFoundError
deriving DecidableEq, Repr

/-- Modelled from the spec: the error of the Index Builder
(GPTSimpleVectorIndex.from_documents, whose code is not under src/): an
EmbeddingError when the underlying embedding computation fails for some
document (policy: the whole build aborts on the first failure). -/
inductive BuildError where
  | embeddingError
deriving DecidableEq, Repr

/-- Modelled from the spec: the error of the Query Engine (index.query, whose
code is not under src/): a QueryError when no relevant content can be
retrieved or the answer-generation call fails. -/
inductive QueryError where
  | queryError
deriving DecidableEq, Repr

/-- The error surfaced by a run of the whole notebook workflow, tagged with
the stage that raised it. -/
inductive WorkflowError where
  | acquisition : AcqError → WorkflowError
  | embeddingError
  | ioError
  | queryErr
deriving DecidableEq, Repr

/-- Modelled from the spec: the external capabilities the notebook calls into,
none of whose code is under src/.  `validTokens` are the source-control
tokens that are valid and have access; `repos` maps an
(owner, repository, branch) triple to the eligible files on that branch, each
a (path, content) pair; `embed` is the embedding computation (None = the
embedding call fails); `gen` is the answer-generation call (None = it fails);
`writable` says whether persisting to a path succeeds. -/
structure WorkflowEnv where
  validTokens : List String
  repos : List ((String × String × String) × List (String × String))
  embed : String → Option (List Int)
  gen : String → String → Option String
  writable : String → Bool

/-- Look up the eligible files of an (owner, repository, branch) triple. -/
def lookupRepo (repos : List ((String × String × String) × List (String × String)))
    (owner repo branch : String) : Option (List (String × String)) :=
  (repos.find? (fun p => p.1 == (owner, repo, branch))).map (fun p => p.2)

/-- Modelled from the spec: GithubRepositoryReader.load_data (library code not
under src/).  Given the access token and the (owner, repository, branch)
triple, retrieve all eligible files reachable on that branch as a sequence of
Documents.  Fails with AuthenticationError when the token is absent, invalid
or lacks access (checked first, before any repository access); fails with
NotFoundError when the triple does not exist; returns an empty sequence, not
an error, when the repository has no eligible files. -/
def load_data (env : WorkflowEnv) (token : Option String)
    (owner repo branch : String) : Except AcqError (List Document) :=
  match token with
  | none => .error .authenticationError
  | some t =>
    if env.validTokens.contains t then
      match lookupRepo env.repos owner repo branch with
      | none => .error .notFoundError
      | some files => .ok (files.map (fun f => ⟨f.2, f.1⟩))
    else .error .authenticationError

/-- The in-memory vector index: the Documents it was built from together with
the embedding computed for each document's text. -/
structure Index where
  docs : List Document
  embeddings : List (List Int)
deriving DecidableEq, Repr

/-- Embed every document's text, failing if the embedding computation fails
for any document. -/
def mapEmbed (embed : String → Option (List Int)) :
    List Document → Option (List (List Int))
  | [] => some []
  | d :: ds =>
    match embed d.text, mapEmbed embed ds with
    | some e, some es => some (e :: es)
    | _, _ => none

/-- Modelled from the spec: GPTSimpleVectorIndex.from_documents (library code
not under src/).  Builds the retrieval-ready structure from the Document
sequence by embedding each document; deterministic given identical Documents
and identical embedding computations; aborts the whole build with an
EmbeddingError if any embedding fails. -/
def from_documents (embed : String → Option (List Int)) (docs : List Document) :
    Except BuildError Index :=
  match mapEmbed embed docs with
  | none => .error .embeddingError
  | some es => .ok ⟨docs, es⟩

/-- The durable storage the index is persisted to: named files, each holding
one serialized index snapshot (the serialization format is opaque per the
spec, so a file's content is modelled as the snapshot itself). -/
abbrev FileSys : Type := List (String × Index)

/-- Modelled from the spec: GPTSimpleVectorIndex.save_to_disk (library code
not under src/).  Serializes the structure to the named file; a single
unscoped write that fails with an IOError when the path is not writable and
otherwise leaves every other file intact. -/
def save_to_disk (env : WorkflowEnv) (fs : FileSys) (path : String)
    (idx : Index) : Except WorkflowError FileSys :=
  if env.writable path then .ok ((path, idx) :: fs) else .error .ioError

/-- Modelled from the spec: GPTSimpleVectorIndex.load_from_disk (library code
not under src/).  Reconstructs the index from the named file, if present. -/
def load_from_disk (fs : FileSys) (path : String) : Option Index :=
  (fs.find? (fun p => p.1 == path)).map (fun p => p.2)

/-- Dot-product similarity between two embedding vectors. -/
def dot : List Int → List Int → Int
  | a :: as, b :: bs => a * b + dot as bs
  | _, _ => 0

/-- Retrieve the most relevant (document, score) pair for a question
embedding, scanning the indexed documents paired with their embeddings;
none when the index holds no documents. -/
def retrieve (qe : List Int) : List (Document × List Int) → Option (Document × Int)
  | [] => none
  | (d, e) :: rest =>
    let s := dot qe e
    match retrieve qe rest with
    | none => some (d, s)
    | some (d2, s2) => if s2 > s then some (d2, s2) else some (d, s)

/-- Modelled from the spec: index.query (library code not under src/).  Given
the built Index and a question, embed the question, retrieve the most
relevant indexed document and generate a textual answer from it; fails with a
QueryError when the question embedding fails, no relevant content can be
retrieved, or the answer-generation call fails.  The result carries the index
state after the call, which the contract requires to be unchanged. -/
def query (embed : String → Option (List Int)) (gen : String → String → Option String)
    (idx : Index) (q : String) : Except QueryError String × Index :=
  match embed q with
  | none => (.error .queryError, idx)
  | some qe =>
    match retrieve qe (idx.docs.zip idx.embeddings) with
    | none => (.error .queryError, idx)
    | some (d, _) =>
      match gen q d.text with
      | none => (.error .queryError, idx)
      | some a => (.ok a, idx)

/-- Python's os.environ.get: the value of the variable when present, None
otherwise, never an error. -/
def getEnvVar (osEnv : List (String × String)) (k : String) : Option String :=
  (osEnv.find? (fun p => p.1 == k)).map (fun p => p.2)

/-- The notebook's fixed run parameters: owner, repository, branch, the
persistence path and the question, as written in cells 3-5. -/
structure RunConfig where
  owner : String
  repo : String
  branch : String
  savePath : String
  question : String
deriving DecidableEq, Repr

/-- The notebook's concrete parameters. -/
def demoConfig : RunConfig :=
  ⟨"jerryjliu", "gpt_index", "main",
   "github_index.json",
   "What is the difference between GPTSimpleVectorIndex and GPTListIndex?"⟩

/-- The tail of the workflow from a built index on: persist it to the
configured path, then query it (notebook cells 4-5). -/
def persistAndQuery (env : WorkflowEnv) (cfg : RunConfig) (fs : FileSys)
    (idx : Index) : Except WorkflowError String × FileSys :=
  match save_to_disk env fs cfg.savePath idx with
  | .error _ => (.error .ioError, fs)
  | .ok fs2 =>
    match (query env.embed env.gen idx cfg.question).1 with
    | .error _ => (.error .queryErr, fs2)
    | .ok a => (.ok a, fs2)

/-- The notebook workflow from the already-read token on: acquisition, then
index construction, then persistence, then query; each stage runs once,
unconditionally, and any stage error aborts the rest. -/
def runWorkflowFrom (env : WorkflowEnv) (token : Option String) (cfg : RunConfig)
    (fs : FileSys) : Except WorkflowError String × FileSys :=
  match load_data env token cfg.owner cfg.repo cfg.branch with
  | .error e => (.error (.acquisition e), fs)
  | .ok documents =>
    match from_documents env.embed documents with
    | .error _ => (.error .embeddingError, fs)
    | .ok index => persistAndQuery env cfg fs index

/-- The whole notebook workflow: cell 3 reads the source-control token with
os.environ.get, passing whatever it returns, unvalidated, straight to the
reader; then the four stages run in order. -/
def runWorkflow (env : WorkflowEnv) (osEnv : List (String × String))
    (cfg : RunConfig) (fs : FileSys) : Except WorkflowError String × FileSys :=
  runWorkflowFrom env (getEnvVar osEnv "GITHUB_TOKEN") cfg fs

/-- The same workflow with the persistence step omitted, used to state that
the query answer never depends on the persisted file. -/
def runWorkflowNoPersist (env : WorkflowEnv) (osEnv : List (String × String))
    (cfg : RunConfig) (fs : FileSys) : Except WorkflowError String × FileSys :=
  match load_data env (getEnvVar osEnv "GITHUB_TOKEN") cfg.owner cfg.repo cfg.branch with
  | .error e => (.error (.acquisition e), fs)
  | .ok documents =>
    match from_documents env.embed documents with
    | .error _ => (.error .embeddingError, fs)
    | .ok index =>
      match (query env.embed env.gen index cfg.question).1 with
      | .error _ => (.error .queryErr, fs)
      | .ok a => (.ok a, fs)

/-! Concrete environments and data used by the witness theorems, following
the spec's end-to-end scenario: owner "acme", repo "docs", branch "main",
files "a.md" containing "Alpha" and "b.md" containing "Beta". -/

/-- A concrete external environment: one valid token, one two-file repository
and one empty repository, a length-based embedding, a generator that echoes
the retrieved text, and every path writable. -/
def demoEnv : WorkflowEnv where
  validTokens := ["tok"]
  repos :=
    [(("acme", "docs", "main"), [("a.md", "Alpha"), ("b.md", "Beta")]),
     (("acme", "empty", "main"), [])]
  embed := fun s => some [(s.length : Int)]
  gen := fun _ d => some d
  writable := fun _ => true

/-- demoEnv with a failing embedding computation. -/
def demoEnvNoEmbed : WorkflowEnv := { demoEnv with embed := fun _ => none }

/-- demoEnv with no writable path. -/
def demoEnvNoWrite : WorkflowEnv := { demoEnv with writable := fun _ => false }

/-- demoEnv with a failing answer-generation call. -/
def demoEnvNoGen : WorkflowEnv := { demoEnv with gen := fun _ _ => none }

/-- A process environment holding the valid source-control token. -/
def demoOsEnv : List (String × String) := [("GITHUB_TOKEN", "tok")]

/-- The notebook workflow pointed at the scenario repository. -/
def demoConfigAcme : RunConfig :=
  ⟨"acme", "docs", "main", "github_index.json", "What does a.md contain?"⟩

/-- The Documents acquisition returns for the scenario repository. -/
def demoDocsAcme : List Document := [⟨"Alpha", "a.md"⟩, ⟨"Beta", "b.md"⟩]

/-- The index built from the scenario Documents with demoEnv's embedding. -/
def demoIdxAcme : Index := ⟨demoDocsAcme, [[5], [4]]⟩

/-- The file system after persisting the scenario index to an empty one. -/
def demoFsSaved : FileSys := [("github_index.json", demoIdxAcme)]

/-! Shared helper lemmas. -/

/-- The query operation returns the index unchanged in every branch. -/
theorem query_preserves_index (embed : String → Option (List Int))
    (gen : String → String → Option String) (idx : Index) (q : String) :
    (query embed gen idx q).2 = idx := by
  unfold query
  split
  · rfl
  · split
    · rfl
    · split
      · rfl
      · rfl

/-- A successful persist makes the snapshot the content of the named file. -/
theorem load_after_save (env : WorkflowEnv) (fs : FileSys) (path : String)
    (idx : Index) (fs2 : FileSys) (h : save_to_disk env fs path idx = .ok fs2) :
    load_from_disk fs2 path = some idx := by
  unfold save_to_disk at h
  by_cases hw : env.writable path
  · rw [if_pos hw] at h
    have h2 : fs2 = (path, idx) :: fs := (Except.ok.inj h).symm
    subst h2
    unfold load_from_disk
    simp
  · rw [if_neg hw] at h
    exact Except.noConfusion h

/-- A successful build records exactly the input Documents in the index. -/
theorem from_documents_docs (embed : String → Option (List Int))
    (docs : List Document) (idx : Index)
    (h : from_documents embed docs = .ok idx) : idx.docs = docs := by
  unfold from_documents at h
  cases he : mapEmbed embed docs with
  | none => rw [he] at h; exact Except.noConfusion h
  | some es =>
    rw [he] at h
    have h2 : idx = ⟨docs, es⟩ := (Except.ok.inj h).symm
    rw [h2]

/-- The eligible files of the scenario repository. -/
def demoFilesAcme : List (String × String) := [("a.md", "Alpha"), ("b.md", "Beta")]

/-! The claims. -/

/-- C1: for every index built from a Document sequence and every question,
loading the index from the file produced by a successful persist and querying
it returns the same answer as querying the original in-memory index. -/
theorem C1_round_trip (env : WorkflowEnv) (docs : List Document) (idx : Index)
    (fs : FileSys) (path : String) (fs2 : FileSys)
    (_hbuild : from_documents env.embed docs = .ok idx)
    (hsave : save_to_disk env fs path idx = .ok fs2) :
    ∃ idx2, load_from_disk fs2 path = some idx2 ∧
      ∀ q, query env.embed env.gen idx2 q = query env.embed env.gen idx q :=
  ⟨idx, load_after_save env fs path idx fs2 hsave, fun _ => rfl⟩

/-- Witness for C1 at the scenario index persisted to an empty file system. -/
theorem C1_round_trip_witness :
    ∃ idx2, load_from_disk demoFsSaved "github_index.json" = some idx2 ∧
      ∀ q, query demoEnv.embed demoEnv.gen idx2 q =
        query demoEnv.embed demoEnv.gen demoIdxAcme q :=
  C1_round_trip demoEnv demoDocsAcme demoIdxAcme [] "github_index.json"
    demoFsSaved rfl rfl

/-- C2: index construction is deterministic: two builds from the same
Document sequence with the same embedding computation yield equal indexes,
and querying both with the same question returns the same answer. -/
theorem C2_deterministic_build (embed : String → Option (List Int))
    (gen : String → String → Option String) (docs : List Document)
    (i1 i2 : Index) (q : String)
    (h1 : from_documents embed docs = .ok i1)
    (h2 : from_documents embed docs = .ok i2) :
    i1 = i2 ∧ query embed gen i1 q = query embed gen i2 q := by
  have he : i1 = i2 := Except.ok.inj (h1.symm.trans h2)
  exact ⟨he, by rw [he]⟩

/-- Witness for C2: two builds over the scenario Documents. -/
theorem C2_deterministic_build_witness :
    demoIdxAcme = demoIdxAcme ∧
    query demoEnv.embed demoEnv.gen demoIdxAcme "What does a.md contain?" =
      query demoEnv.embed demoEnv.gen demoIdxAcme "What does a.md contain?" :=
  C2_deterministic_build demoEnv.embed demoEnv.gen demoDocsAcme demoIdxAcme
    demoIdxAcme "What does a.md contain?" rfl rfl

/-- C3: an acquisition call with an absent, invalid or under-privileged token
fails with AuthenticationError; the result being the error, no Document is
returned to the caller. -/
theorem C3_invalid_token (env : WorkflowEnv) (token : Option String)
    (owner repo branch : String)
    (h : ∀ t, token = some t → t ∉ env.validTokens) :
    load_data env token owner repo branch = .error .authenticationError := by
  cases token with
  | none => rfl
  | some t => simp [load_data, h t rfl]

/-- Witness for C3: a token outside the valid set. -/
theorem C3_invalid_token_witness :
    load_data demoEnv (some "bad") "acme" "docs" "main" =
      .error .authenticationError :=
  C3_invalid_token demoEnv (some "bad") "acme" "docs" "main"
    (by intro t ht; injection ht with h2; subst h2; decide)

/-- C4 counterexample: with an invalid token and a nonexistent
(owner, repository, branch) triple, acquisition raises AuthenticationError,
not the NotFoundError the claim requires for every nonexistent triple. -/
theorem C4_counterexample :
    lookupRepo demoEnv.repos "no" "such" "repo" = none ∧
    load_data demoEnv (some "bad") "no" "such" "repo" =
      .error .authenticationError ∧
    load_data demoEnv (some "bad") "no" "such" "repo" ≠
      .error .notFoundError := by
  refine ⟨rfl, rfl, fun h => ?_⟩
  have h1 : load_data demoEnv (some "bad") "no" "such" "repo" =
      Except.error AcqError.authenticationError := rfl
  exact AcqError.noConfusion (Except.error.inj (h1.symm.trans h))

/-- C4 (amended): an acquisition call with a valid, privileged token whose
(owner, repository, branch) triple does not exist fails with NotFoundError;
the result being the error, no partial Document sequence is returned. -/
theorem C4_not_found (env : WorkflowEnv) (t owner repo branch : String)
    (hvalid : t ∈ env.validTokens)
    (hrepo : lookupRepo env.repos owner repo branch = none) :
    load_data env (some t) owner repo branch = .error .notFoundError := by
  simp [load_data, hvalid, hrepo]

/-- Witness for the amended C4: a valid token and a missing repository. -/
theorem C4_not_found_witness :
    load_data demoEnv (some "tok") "no" "such" "repo" = .error .notFoundError :=
  C4_not_found demoEnv "tok" "no" "such" "repo" (by decide) rfl

/-- C5: with a valid token, a triple with at least one eligible file yields a
non-empty Document sequence, and a triple with no eligible files yields the
empty sequence without an error. -/
theorem C5_eligible_files (env : WorkflowEnv) (t owner repo branch : String)
    (files : List (String × String))
    (hvalid : t ∈ env.validTokens)
    (hrepo : lookupRepo env.repos owner repo branch = some files) :
    (files ≠ [] →
      ∃ ds, load_data env (some t) owner repo branch = .ok ds ∧ ds ≠ []) ∧
    (files = [] → load_data env (some t) owner repo branch = .ok []) := by
  constructor
  · intro hne
    refine ⟨files.map (fun f => ⟨f.2, f.1⟩), ?_, ?_⟩
    · simp [load_data, hvalid, hrepo]
    · simpa using hne
  · intro he
    subst he
    simp [load_data, hvalid, hrepo]

/-- Witness for C5: the two-file scenario repository and the empty one. -/
theorem C5_eligible_files_witness :
    ((demoFilesAcme ≠ [] →
        ∃ ds, load_data demoEnv (some "tok") "acme" "docs" "main" = .ok ds ∧
          ds ≠ []) ∧
     (demoFilesAcme = [] →
        load_data demoEnv (some "tok") "acme" "docs" "main" = .ok [])) ∧
    ((([] : List (String × String)) ≠ [] →
        ∃ ds, load_data demoEnv (some "tok") "acme" "empty" "main" = .ok ds ∧
          ds ≠ []) ∧
     (([] : List (String × String)) = [] →
        load_data demoEnv (some "tok") "acme" "empty" "main" = .ok [])) :=
  ⟨C5_eligible_files demoEnv "tok" "acme" "docs" "main" demoFilesAcme
      (by decide) rfl,
   C5_eligible_files demoEnv "tok" "acme" "empty" "main" []
      (by decide) rfl⟩

/-- C6: the query operation does not mutate the Index: the index component of
the result, whether the answer succeeded or failed, equals the input index. -/
theorem C6_query_no_mutation (embed : String → Option (List Int))
    (gen : String → String → Option String) (idx : Index) (q : String) :
    (query embed gen idx q).2 = idx :=
  query_preserves_index embed gen idx q

/-- C7: no stage catches or recovers from failure: an error in acquisition,
index construction, persistence or query aborts the run with that stage's
error, no later stage executes (the file system is untouched whenever the
failure precedes a completed persist), and the error surfaces to the
caller unhandled. -/
theorem C7_errors_abort (env : WorkflowEnv) (osEnv : List (String × String))
    (cfg : RunConfig) (fs : FileSys) :
    (∀ e, load_data env (getEnvVar osEnv "GITHUB_TOKEN") cfg.owner cfg.repo
        cfg.branch = .error e →
      runWorkflow env osEnv cfg fs = (.error (.acquisition e), fs)) ∧
    (∀ docs, load_data env (getEnvVar osEnv "GITHUB_TOKEN") cfg.owner cfg.repo
        cfg.branch = .ok docs →
      from_documents env.embed docs = .error .embeddingError →
      runWorkflow env osEnv cfg fs = (.error .embeddingError, fs)) ∧
    (∀ docs idx, load_data env (getEnvVar osEnv "GITHUB_TOKEN") cfg.owner
        cfg.repo cfg.branch = .ok docs →
      from_documents env.embed docs = .ok idx →
      save_to_disk env fs cfg.savePath idx = .error .ioError →
      runWorkflow env osEnv cfg fs = (.error .ioError, fs)) ∧
    (∀ docs idx fs2, load_data env (getEnvVar osEnv "GITHUB_TOKEN") cfg.owner
        cfg.repo cfg.branch = .ok docs →
      from_documents env.embed docs = .ok idx →
      save_to_disk env fs cfg.savePath idx = .ok fs2 →
      (query env.embed env.gen idx cfg.question).1 = .error .queryError →
      runWorkflow env osEnv cfg fs = (.error .queryErr, fs2)) := by
  refine ⟨?_, ?_, ?_, ?_⟩
  · intro e h
    simp [runWorkflow, runWorkflowFrom, h]
  · intro docs h1 h2
    simp [runWorkflow, runWorkflowFrom, h1, h2]
  · intro docs idx h1 h2 h3
    simp [runWorkflow, runWorkflowFrom, persistAndQuery, h1, h2, h3]
  · intro docs idx fs2 h1 h2 h3 h4
    simp [runWorkflow, runWorkflowFrom, persistAndQuery, h1, h2, h3, h4]

/-- Witness for C7: concrete runs in which each of the four stages fails. -/
theorem C7_errors_abort_witness :
    runWorkflow demoEnv [] demoConfigAcme [] =
      (.error (.acquisition .authenticationError), []) ∧
    runWorkflow demoEnvNoEmbed demoOsEnv demoConfigAcme [] =
      (.error .embeddingError, []) ∧
    runWorkflow demoEnvNoWrite demoOsEnv demoConfigAcme [] =
      (.error .ioError, []) ∧
    runWorkflow demoEnvNoGen demoOsEnv demoConfigAcme [] =
      (.error .queryErr, demoFsSaved) :=
  ⟨(C7_errors_abort demoEnv [] demoConfigAcme []).1 .authenticationError rfl,
   (C7_errors_abort demoEnvNoEmbed demoOsEnv demoConfigAcme []).2.1
     demoDocsAcme rfl rfl,
   (C7_errors_abort demoEnvNoWrite demoOsEnv demoConfigAcme []).2.2.1
     demoDocsAcme demoIdxAcme rfl rfl rfl,
   (C7_errors_abort demoEnvNoGen demoOsEnv demoConfigAcme []).2.2.2
     demoDocsAcme demoIdxAcme demoFsSaved rfl rfl rfl rfl⟩

/-- C8: the Index is built from exactly the Document sequence returned by the
one acquisition call (no Document added, removed or modified), that same
index flows unmodified into the persist-and-query tail of the workflow, and
querying never mutates it afterwards. -/
theorem C8_index_exact_docs (env : WorkflowEnv) (token : Option String)
    (cfg : RunConfig) (fs : FileSys) (q : String) (docs : List Document)
    (idx : Index)
    (hacq : load_data env token cfg.owner cfg.repo cfg.branch = .ok docs)
    (hbuild : from_documents env.embed docs = .ok idx) :
    idx.docs = docs ∧
    runWorkflowFrom env token cfg fs = persistAndQuery env cfg fs idx ∧
    (query env.embed env.gen idx q).2 = idx := by
  refine ⟨from_documents_docs env.embed docs idx hbuild, ?_,
    query_preserves_index env.embed env.gen idx q⟩
  simp [runWorkflowFrom, hacq, hbuild]

/-- Witness for C8 at the scenario run. -/
theorem C8_index_exact_docs_witness :
    demoIdxAcme.docs = demoDocsAcme ∧
    runWorkflowFrom demoEnv (some "tok") demoConfigAcme [] =
      persistAndQuery demoEnv demoConfigAcme [] demoIdxAcme ∧
    (query demoEnv.embed demoEnv.gen demoIdxAcme
      "What does a.md contain?").2 = demoIdxAcme :=
  C8_index_exact_docs demoEnv (some "tok") demoConfigAcme []
    "What does a.md contain?" demoDocsAcme demoIdxAcme rfl rfl

/-- C9 counterexample: with no GITHUB_TOKEN in the process environment the
workflow performs no presence validation: the absent token flows unchecked
into the pipeline, and the failure that stops the run is acquisition's own
authentication error, not any setup-stage presence check. -/
theorem C9_counterexample :
    getEnvVar ([] : List (String × String)) "GITHUB_TOKEN" = none ∧
    runWorkflow demoEnv [] demoConfigAcme [] =
      runWorkflowFrom demoEnv none demoConfigAcme [] ∧
    runWorkflow demoEnv [] demoConfigAcme [] =
      (.error (.acquisition .authenticationError), []) :=
  ⟨rfl, rfl, rfl⟩

/-- C9 (amended): the workflow reads the source-control token with
os.environ.get and performs no validation at all before use, not even for
presence: whenever the variable is absent, the resulting None token is passed
unchecked into the pipeline and the run fails only inside acquisition. -/
theorem C9_token_unvalidated (env : WorkflowEnv)
    (osEnv : List (String × String)) (cfg : RunConfig) (fs : FileSys)
    (habs : getEnvVar osEnv "GITHUB_TOKEN" = none) :
    runWorkflow env osEnv cfg fs = runWorkflowFrom env none cfg fs ∧
    runWorkflow env osEnv cfg fs =
      (.error (.acquisition .authenticationError), fs) := by
  have h1 : runWorkflow env osEnv cfg fs = runWorkflowFrom env none cfg fs := by
    unfold runWorkflow
    rw [habs]
  exact ⟨h1, h1.trans rfl⟩

/-- Witness for the amended C9: an empty process environment. -/
theorem C9_token_unvalidated_witness :
    runWorkflow demoEnv [] demoConfigAcme [] =
      runWorkflowFrom demoEnv none demoConfigAcme [] ∧
    runWorkflow demoEnv [] demoConfigAcme [] =
      (.error (.acquisition .authenticationError), []) :=
  C9_token_unvalidated demoEnv [] demoConfigAcme [] rfl

/-- C10: the persisted index file is write-only within the workflow: when the
persist succeeds, the answer equals that of the same run with the persistence
step omitted, and the answer never depends on the prior file system
contents (the file is never read back). -/
theorem C10_persist_isolated (env : WorkflowEnv)
    (osEnv : List (String × String)) (cfg : RunConfig) (fs fs2 : FileSys)
    (hw : env.writable cfg.savePath = true) :
    (runWorkflow env osEnv cfg fs).1 =
      (runWorkflowNoPersist env osEnv cfg fs).1 ∧
    (runWorkflowNoPersist env osEnv cfg fs).1 =
      (runWorkflowNoPersist env osEnv cfg fs2).1 ∧
    (runWorkflow env osEnv cfg fs).1 = (runWorkflow env osEnv cfg fs2).1 := by
  cases hld : load_data env (getEnvVar osEnv "GITHUB_TOKEN") cfg.owner
      cfg.repo cfg.branch with
  | error e =>
    simp [runWorkflow, runWorkflowFrom, runWorkflowNoPersist, hld]
  | ok docs =>
    cases hfd : from_documents env.embed docs with
    | error e =>
      simp [runWorkflow, runWorkflowFrom, runWorkflowNoPersist, hld, hfd]
    | ok idx =>
      cases hq : (query env.embed env.gen idx cfg.question).1 with
      | error e =>
        simp [runWorkflow, runWorkflowFrom, runWorkflowNoPersist,
          persistAndQuery, save_to_disk, hld, hfd, hw, hq]
      | ok a =>
        simp [runWorkflow, runWorkflowFrom, runWorkflowNoPersist,
          persistAndQuery, save_to_disk, hld, hfd, hw, hq]

/-- Witness for C10 at the scenario run over two different file systems. -/
theorem C10_persist_isolated_witness :
    (runWorkflow demoEnv demoOsEnv demoConfigAcme []).1 =
      (runWorkflowNoPersist demoEnv demoOsEnv demoConfigAcme []).1 ∧
    (runWorkflowNoPersist demoEnv demoOsEnv demoConfigAcme []).1 =
      (runWorkflowNoPersist demoEnv demoOsEnv demoConfigAcme demoFsSaved).1 ∧
    (runWorkflow demoEnv demoOsEnv demoConfigAcme []).1 =
      (runWorkflow demoEnv demoOsEnv demoConfigAcme demoFsSaved).1 :=
  C10_persist_isolated demoEnv demoOsEnv demoConfigAcme [] demoFsSaved rfl

end GithubDemo
